import Mathlib

/-!
Verification of the Nutrisense nutrition assistant (`app.py`).

The development shallowly embeds the string heuristics, the search
aggregation pipeline, the external-call gating, and the preference store of
`NutrisenseAssistant`.  Strings are manipulated as `List Char` so that every
definition is executable and kernel-reducible; Python string operations
(`in`, `split`, `strip`, `istitle`, `title`) are modelled char-for-char for
the ASCII inputs the application handles.
-/

namespace Nutrisense

/-! ## Python string primitives -/

/-- Model of Python `sub in s` for a non-empty needle: `hasPrefixChars sub s`
checks whether `sub` is a prefix of `s`. -/
def hasPrefixChars : List Char → List Char → Bool
  | [], _ => true
  | _ :: _, [] => false
  | a :: as, b :: bs => a == b && hasPrefixChars as bs

/-- Model of the Python substring test `sub in s`. -/
def pyIn (sub : List Char) : List Char → Bool
  | [] => hasPrefixChars sub []
  | c :: rest => hasPrefixChars sub (c :: rest) || pyIn sub rest

/-- Model of Python `s.lower()` (ASCII). -/
def lowerChars (s : List Char) : List Char := s.map Char.toLower

/-- Helper for `splitOnChars`: `fuel` bounds the recursion by the input
length, `cur` is the reversed pending segment. -/
def splitOnGo (sep : List Char) : Nat → List Char → List Char → List (List Char)
  | _, cur, [] => [cur.reverse]
  | 0, cur, s => [cur.reverse ++ s]
  | fuel + 1, cur, c :: rest =>
    if hasPrefixChars sep (c :: rest) then
      cur.reverse :: splitOnGo sep fuel [] ((c :: rest).drop sep.length)
    else
      splitOnGo sep fuel (c :: cur) rest

/-- Model of Python `s.split(sep)` for a non-empty separator: splits at each
non-overlapping occurrence, left to right. -/
def splitOnChars (sep s : List Char) : List (List Char) :=
  splitOnGo sep s.length [] s

/-- Strip the characters of `cset` from both ends (Python `s.strip(chars)`). -/
def stripChars (cset : List Char) (s : List Char) : List Char :=
  ((s.dropWhile (cset.contains ·)).reverse.dropWhile (cset.contains ·)).reverse

/-- Model of Python `s.strip()` (whitespace strip). -/
def stripWs (s : List Char) : List Char :=
  ((s.dropWhile Char.isWhitespace).reverse.dropWhile Char.isWhitespace).reverse

/-- Helper for `splitWs`; `cur` is the reversed pending word. -/
def splitWsGo : List Char → List Char → List (List Char)
  | [], cur => if cur.isEmpty then [] else [cur.reverse]
  | c :: rest, cur =>
    if c.isWhitespace then
      if cur.isEmpty then splitWsGo rest [] else cur.reverse :: splitWsGo rest []
    else
      splitWsGo rest (c :: cur)

/-- Model of Python `s.split()` with no argument: whitespace split, empties
dropped. -/
def splitWs (s : List Char) : List (List Char) := splitWsGo s []

/-- Tail of `istitle`: `prevCased` records whether the previous character was
cased; `found` whether a cased character has been seen. -/
def istitleGo : List Char → Bool → Bool → Bool
  | [], _, found => found
  | c :: rest, prevCased, found =>
    if c.isUpper then
      if prevCased then false else istitleGo rest true true
    else if c.isLower then
      if prevCased then istitleGo rest true true else false
    else istitleGo rest false found

/-- Model of Python `s.istitle()` (ASCII). -/
def istitle (s : List Char) : Bool := istitleGo s false false

/-- Tail of `pythonTitle`. -/
def titleGo : List Char → Bool → List Char
  | [], _ => []
  | c :: rest, prevCased =>
    if c.isAlpha then
      (if prevCased then c.toLower else c.toUpper) :: titleGo rest true
    else
      c :: titleGo rest false

/-- Model of Python `s.title()` (ASCII). -/
def pythonTitle (s : List Char) : List Char := titleGo s false

/-- Join a list of character lists with a separator (Python `sep.join`). -/
def joinWith (sep : List Char) : List (List Char) → List Char
  | [] => []
  | [w] => w
  | w :: ws => w ++ sep ++ joinWith sep ws

/-! ## Input validation and intent keywords (`validate_input`,
`_is_food_logging_request`, `detect_restaurant_query`) -/

/-- The `forbidden_words` denylist of `validate_input`. -/
def forbidden_words : List String := ["spam", "abuse", "illegal"]

/-- Model of `NutrisenseAssistant.validate_input`: an empty string is falsy
and rejected; otherwise the input is rejected iff some forbidden word occurs
in its lowercasing.  (The non-`str` input case has no counterpart for a
`String` argument.) -/
def validate_input (s : String) : Bool :=
  !s.data.isEmpty && !(forbidden_words.any (fun w => pyIn w.data (lowerChars s.data)))

/-- The `food_logging_keywords` list of `_is_food_logging_request`,
including the source's duplicated `'drank'`. -/
def food_logging_keywords : List String :=
  ["ate", "eaten", "consumed", "had", "drank", "drank",
   "log food", "log meal", "log calories", "track food", "track meal",
   "add food", "add meal", "record food", "record meal",
   "just ate", "just had", "just consumed",
   "breakfast", "lunch", "dinner", "snack", "meal"]

/-- Model of `_is_food_logging_request`: substring test of every keyword
against the lowercased query. -/
def is_food_logging_request (query : String) : Bool :=
  food_logging_keywords.any (fun k => pyIn k.data (lowerChars query.data))

/-- The `restaurant_keywords` list of `detect_restaurant_query`. -/
def restaurant_keywords : List String :=
  ["restaurant", "dining", "eat out", "dinner", "lunch", "breakfast",
   "food place", "cafe", "eatery", "bar", "bistro", "dine", "meal"]

/-- The `food_keywords` list of `detect_restaurant_query`. -/
def food_keywords : List String :=
  ["serving", "food", "cuisine", "dish", "fish", "chicken", "vegetarian",
   "vegan", "italian", "chinese", "indian", "pizza", "burger", "sushi",
   "seafood"]

/-- The `location_indicators` list, with the source's duplicated `'at '`. -/
def location_indicators : List String :=
  ["in ", "at ", "near ", "around ", "for ", "at "]

/-- The inline place list of the `has_food_location_pattern` test. -/
def detection_places : List String :=
  ["pune", "mumbai", "delhi", "bangalore", "hyderabad", "chennai",
   "kolkata", "gurgaon", "noida", "bandra", "andheri", "powai"]

/-- The `common_places` gazetteer of location-extraction strategy 2. -/
def common_places : List String :=
  ["pune", "mumbai", "delhi", "bangalore", "hyderabad", "chennai",
   "kolkata", "gurgaon", "noida",
   "bandra", "andheri", "powai", "koregaon park", "viman nagar",
   "whitefield", "indiranagar",
   "connaught place", "karol bagh", "cyber city", "sector 29", "mg road",
   "brigade road"]

/-- The guard of `detect_restaurant_query`: an explicit restaurant keyword,
or a food keyword together with a known place name, in the lowercased
query. -/
def queryTriggersRestaurant (ql : List Char) : Bool :=
  restaurant_keywords.any (fun k => pyIn k.data ql) ||
    (food_keywords.any (fun k => pyIn k.data ql) &&
      detection_places.any (fun p => pyIn p.data ql))

/-- The punctuation set of `word.strip('.,!?')` in strategy 1. -/
def punctChars : List Char := ['.', ',', '!', '?']

/-- Strategy 1 word filter: keep up to four words while each stripped word
is non-empty and either title-cased or longer than three characters; stop at
the first word failing the test. -/
def takeLocWords : List (List Char) → List (List Char)
  | [] => []
  | w :: rest =>
    let clean := stripChars punctChars w
    if clean ≠ [] ∧ (istitle clean = true ∨ 3 < clean.length) then
      clean :: takeLocWords rest
    else []

/-- Strategy 1, one indicator: if the indicator occurs, split the lowercased
query on it, take the segment after the first occurrence, and collect
location-looking words. -/
def tryIndicator (ql ind : List Char) : Option (List Char) :=
  if pyIn ind ql = true then
    match splitOnChars ind ql with
    | _ :: p1 :: _ =>
      let ws := splitWs (stripWs p1)
      let locWords := takeLocWords (ws.take 4)
      if locWords = [] then none else some (pythonTitle (joinWith [' '] locWords))
    | _ => none
  else none

/-- Location-extraction strategy 1: first indicator that yields words
wins. -/
def strategy1 (ql : List Char) : Option (List Char) :=
  location_indicators.findSome? (fun ind => tryIndicator ql ind.data)

/-- Location-extraction strategy 2: first gazetteer entry occurring as a
substring of the lowercased query, title-cased. -/
def strategy2 (ql : List Char) : Option (List Char) :=
  common_places.findSome? (fun p =>
    if pyIn p.data ql = true then some (pythonTitle p.data) else none)

/-! Strategy 3 models `re.findall(r'\b[A-Z][a-z]+(?:\s+[A-Z][a-z]+)*\b', query)`
followed by `max(matches, key=len)`.  A match is a greedy chain of
capitalized words (`[A-Z][a-z]+` with a maximal lowercase run) separated by
whitespace; if the trailing word-boundary fails (the next character is a
word character), the regex engine backtracks exactly one chain element,
where the boundary holds because a whitespace separator follows; a
single-word candidate with a failing boundary is no match at all. -/

/-- Python `\w` (ASCII). -/
def isWordChar (c : Char) : Bool := c.isAlphanum || c == '_'

/-- Parse `[A-Z][a-z]+` with a maximal lowercase run. -/
def parseCapWord : List Char → Option (List Char × List Char)
  | [] => none
  | c :: rest =>
    if c.isUpper then
      let lows := rest.takeWhile (fun d => d.isLower)
      if lows = [] then none else some (c :: lows, rest.drop lows.length)
    else none

/-- Greedily parse `(?:\s+[A-Z][a-z]+)*` as a list of
(separator, word) segments, returning the remainder. -/
def chainSegs : Nat → List Char → (List (List Char × List Char) × List Char)
  | 0, cs => ([], cs)
  | fuel + 1, cs =>
    let sp := cs.takeWhile Char.isWhitespace
    if sp = [] then ([], cs)
    else
      match parseCapWord (cs.drop sp.length) with
      | none => ([], cs)
      | some (w, cs') =>
        let (segs, r) := chainSegs fuel cs'
        ((sp, w) :: segs, r)

/-- Trailing `\b`: holds at end of input or before a non-word character. -/
def boundaryOk : List Char → Bool
  | [] => true
  | c :: _ => !isWordChar c

/-- Flatten (separator, word) segments back into text. -/
def joinSegs (segs : List (List Char × List Char)) : List Char :=
  segs.flatMap (fun p => p.1 ++ p.2)

/-- Attempt one regex match at the current position; returns the matched
text and the remainder. -/
def capMatchAt (cs : List Char) : Option (List Char × List Char) :=
  match parseCapWord cs with
  | none => none
  | some (w1, rest) =>
    let (segs, r) := chainSegs rest.length rest
    if boundaryOk r then some (w1 ++ joinSegs segs, r)
    else
      match segs.getLast? with
      | none => none
      | some (spL, wL) => some (w1 ++ joinSegs segs.dropLast, spL ++ wL ++ r)

/-- `re.findall` scan: try a match wherever a start boundary holds, else
advance one character. -/
def findallGo : Nat → Bool → List Char → List String → List String
  | 0, _, _, acc => acc.reverse
  | _, _, [], acc => acc.reverse
  | fuel + 1, prevWord, c :: rest, acc =>
    if prevWord then findallGo fuel (isWordChar c) rest acc
    else
      match capMatchAt (c :: rest) with
      | some (m, r) => findallGo fuel true r (String.mk m :: acc)
      | none => findallGo fuel (isWordChar c) rest acc

/-- All capitalized-word-run matches in the original (non-lowercased)
query. -/
def capRunMatches (q : String) : List String :=
  findallGo (q.data.length + 1) false q.data []

/-- Python `max(l, key=len)`: first element of maximal length. -/
def maxByLen : List String → Option String
  | [] => none
  | m :: rest => some (rest.foldl (fun best x => if best.length < x.length then x else best) m)

/-- Location-extraction strategy 3: longest capitalized-word run, if any. -/
def strategy3 (q : String) : Option String :=
  maxByLen (capRunMatches q)

/-- Model of `detect_restaurant_query`: keyword guard, then the three
location-extraction strategies in order; `none` both when the query is not
restaurant-like and when no strategy extracts a location (the Python
function returns `None` in both cases). -/
def detect_restaurant_query (q : String) : Option String :=
  let ql := lowerChars q.data
  if queryTriggersRestaurant ql = true then
    match strategy1 ql with
    | some l => some (String.mk l)
    | none =>
      match strategy2 ql with
      | some l => some (String.mk l)
      | none => strategy3 q
  else none

/-! ## External-call modelling

External HTTP round trips are modelled by oracle values describing the
response class the outside world produces; issuing a call is counted
explicitly so that credential gating ("no call when the key is missing")
is a provable statement. -/

/-- One entry of the external search API's result list (a Python dict whose
keys may be absent). -/
structure SearchResult where
  url : Option String
  title : Option String
  text : Option String
deriving DecidableEq, Repr

/-- Response classes of one search API call: 200 with results, non-2xx, or
a raised exception. -/
inductive HttpResp where
  | ok (results : List SearchResult)
  | fail (code : Nat) (body : String)
  | exc (msg : String)
deriving DecidableEq, Repr

/-- Response classes of one text-generation API call. -/
inductive ChatResp where
  | ok (content : String)
  | fail (code : Nat) (detail : String)
  | exc (msg : String)
deriving DecidableEq, Repr

/-- Response classes of the food-extraction call: 200 with machine-parsable
JSON, 200 with unparsable content, or non-2xx. -/
inductive FoodExtractResp where
  | parsed (food : String) (calories : Int)
  | unparsable (raw : String)
  | fail (code : Nat)
deriving DecidableEq, Repr

/-- The user-preference record as the handlers consume it (the caller-side
dict).  Numeric REAL columns are carried as exact values; the store passes
them through unchanged. -/
structure UserPrefs where
  dietary_restrictions : List String := []
  food_allergies : List String := []
  cuisine_preferences : List String := []
  health_goals : List (String × Bool) := []
  weight_goal : Option Rat := none
  current_weight : Option Rat := none
  activity_level : Option String := none
  age : Option Int := none
  gender : Option String := none
  height_cm : Option Rat := none
  daily_calorie_target : Option Int := none
  protein_target : Option Rat := none
  carb_target : Option Rat := none
  fat_target : Option Rat := none
deriving DecidableEq, Repr

/-! ## Query composer (`_generate_fallback_queries`,
`_generate_smart_search_queries`) -/

/-- The dietary keyword-to-tag cascade of `_generate_fallback_queries`;
unrecognized restrictions yield `none` and are dropped. -/
def dietaryTag (r : String) : Option String :=
  let rl := lowerChars r.data
  if pyIn "vegetarian".data rl then some "vegetarian"
  else if pyIn "vegan".data rl then some "vegan"
  else if pyIn "pescatarian".data rl then some "pescatarian"
  else if pyIn "keto".data rl then some "keto"
  else if pyIn "gluten".data rl then some "gluten-free"
  else if pyIn "halal".data rl then some "halal"
  else if pyIn "kosher".data rl then some "kosher"
  else none

/-- Truthiness of `health_goals.get(k)`: the key is present and maps to
`True`. -/
def goalOn (goals : List (String × Bool)) (k : String) : Bool :=
  ((goals.find? (fun p => p.1 == k)).map Prod.snd).getD false

/-- The health-focus terms of `_generate_fallback_queries` (guarded by the
truthiness of the `health_goals` dict itself). -/
def healthTerms (goals : List (String × Bool)) : List String :=
  if goals = [] then []
  else
    (if goalOn goals "weight_loss" then ["healthy"] else []) ++
      (if goalOn goals "muscle_gain" then ["protein-rich"] else [])

/-- Model of `_generate_fallback_queries`: the deterministic three-query
template used when the AI composer is unavailable or fails. -/
def generate_fallback_queries (location : String) (prefs : UserPrefs) (cuisine : String) : List String :=
  let dietary_terms := prefs.dietary_restrictions.filterMap dietaryTag
  let health_terms := healthTerms prefs.health_goals
  let dietary_str := String.intercalate " " dietary_terms
  let cuisine_str := if cuisine = "" then "restaurants" else cuisine
  let query1 := String.mk (stripWs ("best " ++ dietary_str ++ " " ++ cuisine_str ++ " in " ++ location).data)
  let health_str := if health_terms = [] then "good" else String.intercalate " " health_terms
  let query2 := String.mk (stripWs (health_str ++ " restaurants " ++ location ++ " reviews").data)
  let query3 :=
    location ++ " restaurants" ++
      (match dietary_terms with | [] => "" | d :: _ => " " ++ d) ++ " zomato swiggy"
  [query1, query2, query3]

/-- Split the AI composer's reply into stripped non-empty lines. -/
def parseQueryLines (content : List Char) : List String :=
  (((splitOnChars ['\n'] (stripWs content)).map stripWs).filter (· ≠ [])).map String.mk

/-- Model of `_generate_smart_search_queries`: with a configured key, one
AI call whose reply must parse into at least three lines; otherwise (or on
any failure) the deterministic fallback.  The second component counts
external calls issued. -/
def generate_smart_search_queries (mistralKey : String) (resp : ChatResp)
    (location : String) (prefs : UserPrefs) (cuisine : String) : List String × Nat :=
  if mistralKey ≠ "" then
    match resp with
    | .ok content =>
      let qs := parseQueryLines content.data
      if 3 ≤ qs.length then (qs.take 3, 1)
      else (generate_fallback_queries location prefs cuisine, 1)
    | .fail _ _ => (generate_fallback_queries location prefs cuisine, 1)
    | .exc _ => (generate_fallback_queries location prefs cuisine, 1)
  else (generate_fallback_queries location prefs cuisine, 0)

/-! ## Advice, workout, food logging -/

/-- Model of `_get_ai_nutrition_advice` (the preference context only feeds
the prompt, so it does not appear).  Returns the reply text and the number
of external calls issued. -/
def get_ai_nutrition_advice (mistralKey : String) (resp : ChatResp) : String × Nat :=
  if mistralKey = "" then
    ("❌ Mistral API key not configured. Please set MISTRAL_API_KEY in your environment variables.", 0)
  else
    match resp with
    | .ok content => (String.mk (stripWs content.data), 1)
    | .fail code detail =>
      if code = 401 then
        ("❌ Authentication Error (401): Invalid Mistral API key. Please check your API key configuration.", 1)
      else
        ("❌ API Error (" ++ toString code ++ "): Mistral Agents API error: " ++ toString code ++ detail, 1)
    | .exc m => ("❌ Error: " ++ m, 1)

/-- The message of the exception `generate_workout_plan` raises on a
missing key. -/
def workoutKeyMsg : String :=
  "🔑 MISTRAL_API_KEY required for personalized workout plans. Please configure your API key."

/-- Model of `generate_workout_plan`: raises (`Except.error`) on a missing
key or failed call — the source has no fallback here. -/
def generate_workout_plan (mistralKey : String) (prefs : UserPrefs) (query : String)
    (resp : ChatResp) : Except String String :=
  if mistralKey = "" then
    .error workoutKeyMsg
  else
    match resp with
    | .ok content => .ok (String.mk (stripWs content.data))
    | .fail code body => .error ("Mistral Agents API failed with status " ++ toString code ++ ": " ++ body)
    | .exc m => .error m

/-- One row of the `nutrition_logs` table (timestamps not modelled). -/
structure FoodLogEntry where
  user_id : String
  food_item : String
  calories : Int
deriving DecidableEq, Repr

/-- Model of `log_food_intake`: append-only insert plus confirmation
text. -/
def log_food_intake (db : List FoodLogEntry) (uid food : String) (cal : Int) :
    List FoodLogEntry × String :=
  (db ++ [⟨uid, food, cal⟩], "Logged: " ++ food ++ " (" ++ toString cal ++ " calories)")

/-- Model of `_handle_food_logging_request`.  A falsy user id returns
immediately with no call; otherwise the extraction call is issued
unconditionally — the request headers are built from the configured key even
when it is empty.  The second component counts external calls issued. -/
def handle_food_logging_request (mistralKey : String) (uid : Option String)
    (db : List FoodLogEntry) (prefs : UserPrefs) (query : String)
    (resp : FoodExtractResp) : String × Nat :=
  if uid.getD "" = "" then
    ("❌ Please set your User ID first to log food. Go to \x27🎯 Set Preferences\x27 to set your User ID.", 0)
  else
    match resp with
    | .parsed food cal =>
      let logged := (log_food_intake db (uid.getD "") food cal).2
      let base := "✅ " ++ logged
      let withTarget :=
        if prefs.daily_calorie_target.getD 0 ≠ 0 then
          base ++ "\n📊 Progress: Added " ++ toString cal ++ " calories toward your " ++
            toString (prefs.daily_calorie_target.getD 0) ++ " calorie target."
        else base
      let msg :=
        if prefs.dietary_restrictions ≠ [] ∨ prefs.health_goals ≠ [] then
          withTarget ++ "\n💡 Tip: Keep up the great work tracking your nutrition!"
        else withTarget
      (msg, 1)
    | .unparsable _ =>
      ("❌ I couldn\x27t understand the food details. Please try: \x27I ate [food name]\x27 or \x27Had [food name]\x27", 1)
    | .fail _ =>
      ("❌ I couldn\x27t process your food logging request. Please try: \x27I ate [food name]\x27 or \x27Had [food name]\x27", 1)

/-! ## Search aggregator (`search_restaurants`) -/

/-- The query fan-out loop of `search_restaurants`: one call per query
(index starting at 1, as in `enumerate(..., 1)`), accumulating results,
counting successes, breaking once the accumulated count reaches 10;
failures and exceptions are skipped.  Returns (accumulated results,
successful queries, queries issued). -/
def searchLoop (oracle : Nat → HttpResp) : List String → Nat → List SearchResult → Nat →
    (List SearchResult × Nat × Nat)
  | [], _, acc, succ => (acc, succ, 0)
  | _ :: qs, i, acc, succ =>
    match oracle i with
    | .ok rs =>
      let acc' := acc ++ rs
      if 10 ≤ acc'.length then (acc', succ + 1, 1)
      else
        let (a, s, n) := searchLoop oracle qs (i + 1) acc' (succ + 1)
        (a, s, n + 1)
    | .fail _ _ =>
      let (a, s, n) := searchLoop oracle qs (i + 1) acc succ
      (a, s, n + 1)
    | .exc _ =>
      let (a, s, n) := searchLoop oracle qs (i + 1) acc succ
      (a, s, n + 1)

/-- `result.get("url", "")`. -/
def getUrl (r : SearchResult) : String := r.url.getD ""

/-- The URL-deduplication post-pass: keep a result iff its url is non-empty
and not yet seen (the Python `seen_urls` set is modelled as a list used
only for membership). -/
def dedupByUrl : List SearchResult → List String → List SearchResult
  | [], _ => []
  | r :: rest, seen =>
    let u := getUrl r
    if u ≠ "" ∧ u ∉ seen then r :: dedupByUrl rest (u :: seen)
    else dedupByUrl rest seen

/-- The dict returned by `search_restaurants`, with one optional entry per
key the source may place in it. -/
structure SearchOutcome where
  error : Option String := none
  results : Option (List SearchResult) := none
  total_found : Option Nat := none
  debug_info : Option String := none
deriving DecidableEq, Repr

/-- The cuisine defaulting of `search_restaurants`: an empty cuisine is
replaced by the first preferred cuisine, when any. -/
def effectiveCuisine (prefs : UserPrefs) (cuisine : String) : String :=
  if cuisine = "" then
    match prefs.cuisine_preferences with
    | c :: _ => c
    | [] => cuisine
  else cuisine

/-- The list of results `search_restaurants` accumulates before its dedup
post-pass: the fan-out loop over the (at most six) generated queries. -/
def searchAccumulated (mistralKey : String) (prefs : UserPrefs)
    (location cuisine : String) (chat : ChatResp) (oracle : Nat → HttpResp) :
    List SearchResult :=
  (searchLoop oracle
    (((generate_smart_search_queries mistralKey chat location prefs
        (effectiveCuisine prefs cuisine)).1).take 6) 1 [] 0).1

/-- Model of `search_restaurants`: key gate, cuisine defaulting from
preferences, smart-query generation, fan-out loop over at most six queries,
URL dedup, and the three return shapes.  The preference record is passed in
already loaded (retrieval is modelled with the store below); the second
component counts external calls issued.  No modelled operation raises, so
the source's outer `except` branch is unreachable here. -/
def searchRestaurants (mistralKey exaKey : String) (prefs : UserPrefs)
    (location cuisine : String) (chat : ChatResp) (oracle : Nat → HttpResp) :
    SearchOutcome × Nat :=
  if exaKey = "" then
    ({ error := some "🔑 EXA_API_KEY not configured. Please set your Exa API key in environment variables to enable restaurant search." }, 0)
  else
    let qc := generate_smart_search_queries mistralKey chat location prefs
      (effectiveCuisine prefs cuisine)
    let loopOut := searchLoop oracle (qc.1.take 6) 1 [] 0
    let unique := dedupByUrl loopOut.1 []
    if unique = [] then
      ({ error := none, results := some [], total_found := some 0,
         debug_info := some ("Tried " ++ toString qc.1.length ++ " search queries, " ++
           toString loopOut.2.1 ++ " successful API calls, but got 0 unique results") },
       qc.2 + loopOut.2.2)
    else
      ({ error := none, results := some (unique.take 8), total_found := some unique.length,
         debug_info := some ("Successfully found " ++ toString unique.length ++
           " restaurants using " ++ toString loopOut.2.1 ++ " successful queries") },
       qc.2 + loopOut.2.2)

/-! ## Response synthesis and query routing -/

/-- The no-AI listing fallback of
`_generate_ai_restaurant_recommendations`. -/
def simpleListing (results : List SearchResult) (location : String) : String :=
  "🍽️ **Found " ++ toString results.length ++ " restaurant recommendations for " ++
    location ++ ":**\n\n" ++
    String.join ((results.take 5).enum.map (fun p =>
      toString (p.1 + 1) ++ ". **" ++ p.2.title.getD "Restaurant" ++ "**\n" ++
        p.2.url.getD "" ++ "\n\n"))

/-- The non-200 listing fallback of
`_generate_ai_restaurant_recommendations`. -/
def failListing (results : List SearchResult) (location : String) : String :=
  "🍽️ **Found " ++ toString results.length ++ " great restaurant options in " ++
    location ++ ":**\n\n" ++
    String.join ((results.take 5).enum.map (fun p =>
      toString (p.1 + 1) ++ ". **" ++ p.2.title.getD "Restaurant" ++ "**\n" ++
        (match p.2.url with | some u => if u ≠ "" then "🔗 " ++ u ++ "\n" else "" | none => "") ++ "\n"))

/-- The exception listing fallback of
`_generate_ai_restaurant_recommendations`. -/
def excListing (results : List SearchResult) (location : String) : String :=
  "🍽️ **Found " ++ toString results.length ++ " restaurants in " ++ location ++ ":**\n\n" ++
    String.join ((results.take 5).enum.map (fun p =>
      toString (p.1 + 1) ++ ". " ++ p.2.title.getD "Restaurant" ++ "\n"))

/-- Model of `_generate_ai_restaurant_recommendations`. -/
def generate_ai_restaurant_recommendations (mistralKey : String)
    (results : List SearchResult) (location : String) (resp : ChatResp) : String :=
  if mistralKey = "" then simpleListing results location
  else
    match resp with
    | .ok content => String.mk (stripWs content.data)
    | .fail _ _ => failListing results location
    | .exc _ => excListing results location

/-- Model of `format_restaurant_results` (the long static advice texts of
the source are abbreviated to their distinguishing leads; no claim depends
on them). -/
def format_restaurant_results (mistralKey : String) (sr : SearchOutcome)
    (location : String) (aiResp : ChatResp) : String :=
  match sr.error with
  | some e =>
    if pyIn "EXA_API_KEY".data e.data then
      "🔑 **Restaurant Search Not Available**\n\n" ++ e ++
        "\n\n**To enable real-time restaurant search:** get and configure an Exa API key.\n\n**Meanwhile, here are dining tips for " ++ location ++ ":** check review sites and prefer healthy cooking methods."
    else
      "⚠️ **Search Issue:** " ++ e ++
        "\n\n**General dining tips for " ++ location ++ ":** check review sites and prefer healthy cooking methods."
  | none =>
    let results := sr.results.getD []
    if results = [] then
      let d := sr.debug_info.getD ""
      "🤔 **No Restaurant Results Found**\n\nI searched extensively but couldn\x27t find specific restaurant recommendations for **" ++
        location ++ "** right now." ++
        (if d ≠ "" then "\n\n🔍 **Debug Info:** " ++ d else "")
    else generate_ai_restaurant_recommendations mistralKey results location aiResp

/-- The fitness keyword list of the workout routing branch. -/
def workout_keywords : List String :=
  ["workout", "exercise", "fitness", "training", "gym", "strength", "cardio", "muscle"]

/-- The routing decision of `process_nutrition_query`. -/
inductive Intent where
  | invalid
  | foodLogging
  | restaurant (location : String)
  | workout
  | general
deriving DecidableEq, Repr

/-- The routing chain of `process_nutrition_query`: validation, then food
logging, then restaurant detection, then workout keywords, else general
advice. -/
def classify_query (q : String) : Intent :=
  if validate_input q = false then .invalid
  else if is_food_logging_request q then .foodLogging
  else
    match detect_restaurant_query q with
    | some loc => .restaurant loc
    | none =>
      if workout_keywords.any (fun k => pyIn k.data (lowerChars q.data)) then .workout
      else .general

/-- The external responses one `process_nutrition_query` invocation may
consume. -/
structure Oracles where
  chat : ChatResp
  smart : ChatResp
  recs : ChatResp
  food : FoodExtractResp
  search : Nat → HttpResp

/-- Model of `process_nutrition_query`.  The source wraps its body in
`try/except` returning an apology string; `generate_workout_plan` is the
only modelled operation that raises, so the catch appears on the workout
branch.  Preference retrieval is modelled by the `prefs` argument. -/
def process_nutrition_query (mistralKey exaKey : String) (uid : Option String)
    (foodDb : List FoodLogEntry) (prefs : UserPrefs) (query : String)
    (o : Oracles) : String :=
  match classify_query query with
  | .invalid => "Invalid input. Please provide a valid nutrition question."
  | .foodLogging => (handle_food_logging_request mistralKey uid foodDb prefs query o.food).1
  | .restaurant loc =>
    format_restaurant_results mistralKey
      (searchRestaurants mistralKey exaKey prefs loc "" o.smart o.search).1 loc o.recs
  | .workout =>
    match generate_workout_plan mistralKey prefs query o.chat with
    | .ok s => s
    | .error e => "⚠️ Sorry, I encountered an error processing your query: " ++ e
  | .general => (get_ai_nutrition_advice mistralKey o.chat).1

/-! ## JSON codec for the preference store

`save_user_preferences` serializes the list- and dict-valued fields with
`json.dumps`; `get_user_preferences` parses them back with `json.loads`.
The stdlib codec is modelled here for exactly the shapes the table stores:
arrays of strings and objects mapping strings to booleans, with `", "` and
`": "` separators as `json.dumps` emits them.  String escaping is modelled
for quote and backslash (the stdlib additionally escapes control and
non-ASCII characters, which does not affect the encode/decode round trip
modelled here). -/

/-- Escape one character of a JSON string. -/
def escChar (c : Char) : List Char :=
  if c = '"' then ['\\', '"']
  else if c = '\\' then ['\\', '\\']
  else [c]

/-- Escape a whole string body. -/
def escSeq : List Char → List Char
  | [] => []
  | c :: rest => escChar c ++ escSeq rest

/-- Encode a JSON string literal. -/
def encStr (s : List Char) : List Char := '"' :: escSeq s ++ ['"']

/-- Decode a JSON string body after the opening quote; returns the decoded
characters and the remainder after the closing quote. -/
def jstrDecGo : List Char → Option (List Char × List Char)
  | [] => none
  | c :: rest =>
    if c == '"' then some ([], rest)
    else if c == '\\' then
      match rest with
      | [] => none
      | d :: rest2 =>
        if d == '"' || d == '\\' then (jstrDecGo rest2).map (fun p => (d :: p.1, p.2))
        else none
    else (jstrDecGo rest).map (fun p => (c :: p.1, p.2))

/-- Decode a JSON string literal including its opening quote. -/
def decStr (cs : List Char) : Option (List Char × List Char) :=
  match cs with
  | [] => none
  | c :: rest => if c == '"' then jstrDecGo rest else none

/-- Encode the comma-separated items of a non-empty string array. -/
def encStrItems : List (List Char) → List Char
  | [] => []
  | [s] => encStr s
  | s :: rest => encStr s ++ ',' :: ' ' :: encStrItems rest

/-- Decode the comma-separated items of a non-empty string array up to the
closing bracket. -/
def decStrItems : Nat → List Char → Option (List (List Char) × List Char)
  | 0, _ => none
  | fuel + 1, cs =>
    match decStr cs with
    | none => none
    | some (s, rest) =>
      match rest with
      | [] => none
      | c :: rest2 =>
        if c == ']' then some ([s], rest2)
        else if c == ',' then
          match rest2 with
          | [] => none
          | d :: rest3 =>
            if d == ' ' then (decStrItems fuel rest3).map (fun p => (s :: p.1, p.2))
            else none
        else none

/-- `json.dumps` of a list of strings. -/
def dumpsStrList (l : List String) : String :=
  String.mk ('[' :: encStrItems (l.map String.data) ++ [']'])

/-- `json.loads` of a list of strings, on the character level. -/
def loadsStrListChars : List Char → Option (List String)
  | [] => none
  | c :: cs =>
    if c == '[' then
      match cs with
      | [] => none
      | d :: cs2 =>
        if d == ']' then (if cs2 = [] then some [] else none)
        else
          match decStrItems cs.length cs with
          | some (items, rest) => if rest = [] then some (items.map String.mk) else none
          | none => none
    else none

/-- `json.loads` of a list of strings; `none` models `JSONDecodeError`. -/
def loadsStrList (s : String) : Option (List String) := loadsStrListChars s.data

/-- Encode a boolean JSON value. -/
def encBool (b : Bool) : List Char :=
  if b then ['t', 'r', 'u', 'e'] else ['f', 'a', 'l', 's', 'e']

/-- Decode a boolean JSON value. -/
def decBool (cs : List Char) : Option (Bool × List Char) :=
  if hasPrefixChars ['t', 'r', 'u', 'e'] cs then some (true, cs.drop 4)
  else if hasPrefixChars ['f', 'a', 'l', 's', 'e'] cs then some (false, cs.drop 5)
  else none

/-- Encode one `"key": bool` object member. -/
def encPair (p : String × Bool) : List Char :=
  encStr p.1.data ++ ':' :: ' ' :: encBool p.2

/-- Encode the comma-separated members of a non-empty object. -/
def encPairItems : List (String × Bool) → List Char
  | [] => []
  | [p] => encPair p
  | p :: rest => encPair p ++ ',' :: ' ' :: encPairItems rest

/-- Decode one `"key": bool` object member. -/
def decPair (cs : List Char) : Option ((String × Bool) × List Char) :=
  match decStr cs with
  | none => none
  | some (k, rest) =>
    match rest with
    | c1 :: c2 :: rest2 =>
      if c1 == ':' && c2 == ' ' then (decBool rest2).map (fun p => ((String.mk k, p.1), p.2))
      else none
    | _ => none

/-- Decode the comma-separated members of a non-empty object up to the
closing brace. -/
def decPairItems : Nat → List Char → Option (List (String × Bool) × List Char)
  | 0, _ => none
  | fuel + 1, cs =>
    match decPair cs with
    | none => none
    | some (p, rest) =>
      match rest with
      | [] => none
      | c :: rest2 =>
        if c == '\x7d' then some ([p], rest2)
        else if c == ',' then
          match rest2 with
          | [] => none
          | d :: rest3 =>
            if d == ' ' then (decPairItems fuel rest3).map (fun q => (p :: q.1, q.2))
            else none
        else none

/-- Insert into a Python dict modelled as an association list: a repeated
key updates in place, a fresh key appends. -/
def dictInsert (d : List (String × Bool)) (k : String) (v : Bool) : List (String × Bool) :=
  if d.any (fun p => p.1 == k) then d.map (fun p => if p.1 == k then (k, v) else p)
  else d ++ [(k, v)]

/-- Build a Python dict from parsed members (first-occurrence order, last
value wins, as `json.loads` produces). -/
def buildDict (l : List (String × Bool)) : List (String × Bool) :=
  l.foldl (fun d p => dictInsert d p.1 p.2) []

/-- `json.dumps` of a string-to-boolean dict. -/
def dumpsBoolObj (l : List (String × Bool)) : String :=
  String.mk ('\x7b' :: encPairItems l ++ ['\x7d'])

/-- `json.loads` of a string-to-boolean object, on the character level. -/
def loadsBoolObjChars : List Char → Option (List (String × Bool))
  | [] => none
  | c :: cs =>
    if c == '\x7b' then
      match cs with
      | [] => none
      | d :: cs2 =>
        if d == '\x7d' then (if cs2 = [] then some [] else none)
        else
          match decPairItems cs.length cs with
          | some (items, rest) => if rest = [] then some (buildDict items) else none
          | none => none
    else none

/-- `json.loads` of a string-to-boolean object. -/
def loadsBoolObj (s : String) : Option (List (String × Bool)) := loadsBoolObjChars s.data

/-! ## Preference store (`save_user_preferences`, `get_user_preferences`) -/

/-- One row of the `user_preferences` table: the four structured fields are
stored as TEXT holding their JSON encoding; scalar columns pass through
(autoincrement id and timestamps are not modelled). -/
structure PrefRow where
  user_id : String
  dietary_restrictions : String
  food_allergies : String
  cuisine_preferences : String
  health_goals : String
  weight_goal : Option Rat
  current_weight : Option Rat
  activity_level : Option String
  age : Option Int
  gender : Option String
  height_cm : Option Rat
  daily_calorie_target : Option Int
  protein_target : Option Rat
  carb_target : Option Rat
  fat_target : Option Rat
deriving DecidableEq, Repr

/-- `INSERT OR REPLACE` against the `user_id` UNIQUE column: replace the
conflicting row if present, else insert. -/
def upsertRow (db : List PrefRow) (r : PrefRow) : List PrefRow :=
  if db.any (fun x => x.user_id == r.user_id) then
    db.map (fun x => if x.user_id == r.user_id then r else x)
  else db ++ [r]

/-- Model of `save_user_preferences`: serialize the structured fields and
upsert one row. -/
def save_user_preferences (db : List PrefRow) (uid : String) (p : UserPrefs) :
    List PrefRow × String :=
  (upsertRow db
    { user_id := uid
      dietary_restrictions := dumpsStrList p.dietary_restrictions
      food_allergies := dumpsStrList p.food_allergies
      cuisine_preferences := dumpsStrList p.cuisine_preferences
      health_goals := dumpsBoolObj p.health_goals
      weight_goal := p.weight_goal
      current_weight := p.current_weight
      activity_level := p.activity_level
      age := p.age
      gender := p.gender
      height_cm := p.height_cm
      daily_calorie_target := p.daily_calorie_target
      protein_target := p.protein_target
      carb_target := p.carb_target
      fat_target := p.fat_target },
   "✅ Preferences saved successfully!")

/-- A retrieved structured field: parsed into its structured form, or left
as the raw stored text when `json.loads` raised. -/
inductive JsonField (α : Type) where
  | parsed (v : α)
  | rawText (s : String)
deriving DecidableEq, Repr

/-- The dict `get_user_preferences` returns for an existing row. -/
structure RetrievedPrefs where
  user_id : String
  dietary_restrictions : JsonField (List String)
  food_allergies : JsonField (List String)
  cuisine_preferences : JsonField (List String)
  health_goals : JsonField (List (String × Bool))
  weight_goal : Option Rat
  current_weight : Option Rat
  activity_level : Option String
  age : Option Int
  gender : Option String
  height_cm : Option Rat
  daily_calorie_target : Option Int
  protein_target : Option Rat
  carb_target : Option Rat
  fat_target : Option Rat
deriving DecidableEq, Repr

/-- Scalar part of `parsePrefRow`. -/
def rowScalars (r : PrefRow) (d a c : JsonField (List String))
    (g : JsonField (List (String × Bool))) : RetrievedPrefs :=
  { user_id := r.user_id
    dietary_restrictions := d
    food_allergies := a
    cuisine_preferences := c
    health_goals := g
    weight_goal := r.weight_goal
    current_weight := r.current_weight
    activity_level := r.activity_level
    age := r.age
    gender := r.gender
    height_cm := r.height_cm
    daily_calorie_target := r.daily_calorie_target
    protein_target := r.protein_target
    carb_target := r.carb_target
    fat_target := r.fat_target }

/-- The JSON-parsing block of `get_user_preferences`: the four fields are
parsed inside one `try`, so the first `JSONDecodeError` leaves that field
and all later ones as raw text. -/
def parsePrefRow (r : PrefRow) : RetrievedPrefs :=
  match loadsStrList r.dietary_restrictions with
  | none =>
    rowScalars r (.rawText r.dietary_restrictions) (.rawText r.food_allergies)
      (.rawText r.cuisine_preferences) (.rawText r.health_goals)
  | some d =>
    match loadsStrList r.food_allergies with
    | none =>
      rowScalars r (.parsed d) (.rawText r.food_allergies)
        (.rawText r.cuisine_preferences) (.rawText r.health_goals)
    | some a =>
      match loadsStrList r.cuisine_preferences with
      | none =>
        rowScalars r (.parsed d) (.parsed a) (.rawText r.cuisine_preferences)
          (.rawText r.health_goals)
      | some c =>
        match loadsBoolObj r.health_goals with
        | none => rowScalars r (.parsed d) (.parsed a) (.parsed c) (.rawText r.health_goals)
        | some g => rowScalars r (.parsed d) (.parsed a) (.parsed c) (.parsed g)

/-- Model of `get_user_preferences`: `none` models the empty dict returned
when no row matches. -/
def get_user_preferences (db : List PrefRow) (uid : String) : Option RetrievedPrefs :=
  (db.find? (fun x => x.user_id == uid)).map parsePrefRow

/-! ## Lemmas about the dedup post-pass -/

theorem dedup_sublist (l : List SearchResult) : ∀ seen, List.Sublist (dedupByUrl l seen) l := by
  induction l with
  | nil => intro seen; simp [dedupByUrl]
  | cons r rest ih =>
    intro seen
    simp only [dedupByUrl]
    split
    · exact (ih _).cons₂ r
    · exact (ih _).cons r

theorem dedup_mem (l : List SearchResult) :
    ∀ seen (r : SearchResult), r ∈ dedupByUrl l seen → getUrl r ≠ "" ∧ getUrl r ∉ seen := by
  induction l with
  | nil => intro seen r h; simp [dedupByUrl] at h
  | cons x rest ih =>
    intro seen r h
    simp only [dedupByUrl] at h
    by_cases hc : getUrl x ≠ "" ∧ getUrl x ∉ seen
    · rw [if_pos hc] at h
      rcases List.mem_cons.mp h with rfl | h2
      · exact hc
      · have h3 := ih _ _ h2
        exact ⟨h3.1, fun hm => h3.2 (List.mem_cons_of_mem _ hm)⟩
    · rw [if_neg hc] at h
      exact ih _ _ h

theorem dedup_mem_url (l : List SearchResult) (seen : List String) (u : String)
    (h : u ∈ (dedupByUrl l seen).map getUrl) : u ≠ "" ∧ u ∉ seen := by
  obtain ⟨r, hr, rfl⟩ := List.mem_map.mp h
  exact dedup_mem l seen r hr

theorem dedup_nodup (l : List SearchResult) :
    ∀ seen, ((dedupByUrl l seen).map getUrl).Nodup := by
  induction l with
  | nil => intro seen; simp [dedupByUrl]
  | cons x rest ih =>
    intro seen
    simp only [dedupByUrl]
    split
    · simp only [List.map_cons, List.nodup_cons]
      refine ⟨fun hmem => ?_, ih _⟩
      exact (dedup_mem_url _ _ _ hmem).2 (List.mem_cons_self _ _)
    · exact ih _

theorem dedup_complete (l : List SearchResult) :
    ∀ seen (u : String), u ≠ "" → u ∉ seen → u ∈ l.map getUrl →
      u ∈ (dedupByUrl l seen).map getUrl := by
  induction l with
  | nil => intro seen u _ _ h; simp at h
  | cons x rest ih =>
    intro seen u hne hns hmem
    rcases List.mem_cons.mp hmem with hx | hm
    · simp only [dedupByUrl]
      rw [if_pos (by rw [← hx]; exact ⟨hne, hns⟩)]
      simp [hx]
    · simp only [dedupByUrl]
      by_cases hc : getUrl x ≠ "" ∧ getUrl x ∉ seen
      · rw [if_pos hc]
        by_cases hu : u = getUrl x
        · simp [hu]
        · have hns2 : u ∉ getUrl x :: seen := by
            intro hmm
            rcases List.mem_cons.mp hmm with h1 | h2
            · exact hu h1
            · exact hns h2
          exact List.mem_cons_of_mem _ (ih _ u hne hns2 hm)
      · rw [if_neg hc]
        exact ih _ u hne hns hm

theorem dedup_first (l : List SearchResult) :
    ∀ seen (u : String) (r : SearchResult), u ≠ "" → u ∉ seen →
      l.find? (fun x => getUrl x == u) = some r → r ∈ dedupByUrl l seen := by
  induction l with
  | nil => intro seen u r _ _ h; simp at h
  | cons x rest ih =>
    intro seen u r hne hns hf
    by_cases hp : getUrl x = u
    · rw [List.find?_cons_of_pos _ (by simp [hp])] at hf
      obtain rfl : x = r := by injection hf
      simp only [dedupByUrl]
      rw [if_pos (by rw [hp]; exact ⟨hne, hns⟩)]
      exact List.mem_cons_self _ _
    · rw [List.find?_cons_of_neg _ (by simp [hp])] at hf
      simp only [dedupByUrl]
      by_cases hc : getUrl x ≠ "" ∧ getUrl x ∉ seen
      · rw [if_pos hc]
        have hns2 : u ∉ getUrl x :: seen := by
          intro hmm
          rcases List.mem_cons.mp hmm with h1 | h2
          · exact hp h1.symm
          · exact hns h2
        exact List.mem_cons_of_mem _ (ih _ u r hne hns2 hf)
      · rw [if_neg hc]
        exact ih _ u r hne hns hf

theorem dedup_all_blank (l : List SearchResult) (h : ∀ r ∈ l, getUrl r = "") :
    ∀ seen, dedupByUrl l seen = [] := by
  induction l with
  | nil => intro seen; simp [dedupByUrl]
  | cons x rest ih =>
    intro seen
    simp only [dedupByUrl]
    rw [if_neg (by simp [h x (List.mem_cons_self _ _)])]
    exact ih (fun r hr => h r (List.mem_cons_of_mem _ hr)) seen

/-! ## Lemma about the fan-out loop -/

theorem searchLoop_break (oracle : Nat → HttpResp) (q : String) (qs : List String)
    (i : Nat) (acc : List SearchResult) (succ : Nat) (rs : List SearchResult)
    (h1 : oracle i = .ok rs) (h2 : 10 ≤ (acc ++ rs).length) :
    searchLoop oracle (q :: qs) i acc succ = (acc ++ rs, succ + 1, 1) := by
  simp only [searchLoop, h1]
  rw [if_pos h2]

/-- The unique list `search_restaurants` derives from its accumulated
results. -/
def searchUnique (mistralKey : String) (prefs : UserPrefs) (location cuisine : String)
    (chat : ChatResp) (oracle : Nat → HttpResp) : List SearchResult :=
  dedupByUrl (searchAccumulated mistralKey prefs location cuisine chat oracle) []

theorem searchRestaurants_ok (mistralKey ek : String) (prefs : UserPrefs)
    (location cuisine : String) (chat : ChatResp) (oracle : Nat → HttpResp)
    (hek : ¬ ek = "") :
    (searchRestaurants mistralKey ek prefs location cuisine chat oracle).1.results =
      some ((searchUnique mistralKey prefs location cuisine chat oracle).take 8) ∧
    (searchRestaurants mistralKey ek prefs location cuisine chat oracle).1.total_found =
      some (searchUnique mistralKey prefs location cuisine chat oracle).length ∧
    (searchRestaurants mistralKey ek prefs location cuisine chat oracle).1.error = none ∧
    ((searchRestaurants mistralKey ek prefs location cuisine chat oracle).1.debug_info).isSome = true := by
  simp only [searchRestaurants, searchUnique, searchAccumulated]
  rw [if_neg hek]
  by_cases h : dedupByUrl (searchLoop oracle
      (((generate_smart_search_queries mistralKey chat location prefs
        (effectiveCuisine prefs cuisine)).1).take 6) 1 [] 0).1 [] = [] <;>
    simp [h]

/-- Claim C2: with a configured search key, the returned `results` field is
the first eight entries of the URL-deduplicated accumulated list,
`total_found` is that unique list's pre-truncation length, and the unique
list is a sublist of the accumulated results (first-seen order) carrying
each non-empty URL exactly once — in particular the first accumulated
result of each URL survives. -/
theorem c2_dedup_truncation (mistralKey ek : String) (prefs : UserPrefs)
    (location cuisine : String) (chat : ChatResp) (oracle : Nat → HttpResp)
    (hek : ¬ ek = "") :
    (searchRestaurants mistralKey ek prefs location cuisine chat oracle).1.results =
      some ((searchUnique mistralKey prefs location cuisine chat oracle).take 8) ∧
    (searchRestaurants mistralKey ek prefs location cuisine chat oracle).1.total_found =
      some (searchUnique mistralKey prefs location cuisine chat oracle).length ∧
    List.Sublist (searchUnique mistralKey prefs location cuisine chat oracle)
      (searchAccumulated mistralKey prefs location cuisine chat oracle) ∧
    ((searchUnique mistralKey prefs location cuisine chat oracle).map getUrl).Nodup ∧
    (∀ u : String, u ≠ "" →
      (u ∈ (searchAccumulated mistralKey prefs location cuisine chat oracle).map getUrl ↔
        u ∈ (searchUnique mistralKey prefs location cuisine chat oracle).map getUrl)) ∧
    (∀ (u : String) (r : SearchResult), u ≠ "" →
      (searchAccumulated mistralKey prefs location cuisine chat oracle).find?
          (fun x => getUrl x == u) = some r →
      r ∈ searchUnique mistralKey prefs location cuisine chat oracle) := by
  have hok := searchRestaurants_ok mistralKey ek prefs location cuisine chat oracle hek
  refine ⟨hok.1, hok.2.1, dedup_sublist _ _, dedup_nodup _ _, ?_, ?_⟩
  · intro u hne
    constructor
    · intro hm
      exact dedup_complete _ _ u hne (by simp) hm
    · intro hm
      exact (((dedup_sublist _ _).map getUrl).subset) hm
  · intro u r hne hf
    exact dedup_first _ _ u r hne (by simp) hf

/-- Concrete search results for the C2 witness scenario. -/
def rA : SearchResult := ⟨some "https://a", some "A", none⟩

def rB : SearchResult := ⟨some "https://b", some "B", none⟩

def rA2 : SearchResult := ⟨some "https://a", some "A again", none⟩

def rC : SearchResult := ⟨some "https://b", some "C", none⟩

def rD : SearchResult := ⟨some "https://d", some "D", none⟩

/-- Oracle repeating URLs across two queries. -/
def c2Oracle : Nat → HttpResp := fun i =>
  if i = 1 then .ok [rA, rB, rA2] else if i = 2 then .ok [rC, rD] else .ok []

theorem c2_dedup_truncation_witness :
    ¬ ("k" : String) = "" ∧
    (searchRestaurants "" "k" {} "Pune" "" (.exc "x") c2Oracle).1.results =
      some [rA, rB, rD] ∧
    (searchRestaurants "" "k" {} "Pune" "" (.exc "x") c2Oracle).1.total_found = some 3 := by
  have h := c2_dedup_truncation "" "k" {} "Pune" "" (.exc "x") c2Oracle (by decide)
  refine ⟨by decide, ?_, ?_⟩
  · rw [h.1]; decide
  · rw [h.2.1]; decide

/-- A search result list of length four, for the quota test scenario. -/
def fourResults (tag : String) : List SearchResult :=
  [⟨some (tag ++ "1"), none, none⟩, ⟨some (tag ++ "2"), none, none⟩,
   ⟨some (tag ++ "3"), none, none⟩, ⟨some (tag ++ "4"), none, none⟩]

/-- Oracle answering every query with four results. -/
def fourOracle : Nat → HttpResp := fun i => .ok (fourResults (toString i))

/-- Claim C3: a query whose successful response lifts the accumulated count
to the quota of 10 is the last query issued — the loop returns right after
it, issuing exactly one call at that point; with five queries available and
each call returning four results, exactly three queries are issued. -/
theorem c3_search_quota (oracle : Nat → HttpResp) (q : String) (qs : List String)
    (i : Nat) (acc : List SearchResult) (succ : Nat) (rs : List SearchResult)
    (h1 : oracle i = .ok rs) (h2 : 10 ≤ (acc ++ rs).length) :
    searchLoop oracle (q :: qs) i acc succ = (acc ++ rs, succ + 1, 1) ∧
    (searchLoop fourOracle ["q1", "q2", "q3", "q4", "q5"] 1 [] 0).2.2 = 3 ∧
    (searchLoop fourOracle ["q1", "q2", "q3", "q4", "q5"] 1 [] 0).1.length = 12 :=
  ⟨searchLoop_break oracle q qs i acc succ rs h1 h2, by decide, by decide⟩

theorem c3_search_quota_witness :
    fourOracle 3 = .ok (fourResults "3") ∧
    10 ≤ ((fourResults "1" ++ fourResults "2") ++ fourResults "3").length ∧
    searchLoop fourOracle ["q3", "q4", "q5"] 3 (fourResults "1" ++ fourResults "2") 2 =
      ((fourResults "1" ++ fourResults "2") ++ fourResults "3", 3, 1) :=
  ⟨rfl, by decide,
    (c3_search_quota fourOracle "q3" ["q4", "q5"] 3 (fourResults "1" ++ fourResults "2") 2
      (fourResults "3") rfl (by decide)).1⟩

/-- Claim C6: a missing search credential yields a shape whose `error`
field is set (and no `results` field), while a run that found zero unique
results yields `error` absent, `results` = `[]`, `total_found` = 0 and
diagnostic text — the two outcomes are distinguished by the `error`
field. -/
theorem c6_error_shape (mistralKey : String) (prefs : UserPrefs)
    (location cuisine : String) (chat : ChatResp) (oracle : Nat → HttpResp)
    (ek : String) (hek : ¬ ek = "")
    (hempty : searchUnique mistralKey prefs location cuisine chat oracle = []) :
    ((searchRestaurants mistralKey "" prefs location cuisine chat oracle).1.error).isSome = true ∧
    (searchRestaurants mistralKey "" prefs location cuisine chat oracle).1.results = none ∧
    (searchRestaurants mistralKey ek prefs location cuisine chat oracle).1.error = none ∧
    (searchRestaurants mistralKey ek prefs location cuisine chat oracle).1.results = some [] ∧
    (searchRestaurants mistralKey ek prefs location cuisine chat oracle).1.total_found = some 0 ∧
    ((searchRestaurants mistralKey ek prefs location cuisine chat oracle).1.debug_info).isSome = true := by
  have hok := searchRestaurants_ok mistralKey ek prefs location cuisine chat oracle hek
  refine ⟨by simp [searchRestaurants], by simp [searchRestaurants], hok.2.2.1, ?_, ?_, hok.2.2.2⟩
  · rw [hok.1, hempty]; rfl
  · rw [hok.2.1, hempty]; rfl

theorem c6_error_shape_witness :
    ¬ ("k" : String) = "" ∧
    searchUnique "" {} "Pune" "" (.exc "x") (fun _ => .ok []) = [] ∧
    ((searchRestaurants "" "" {} "Pune" "" (.exc "x") (fun _ => .ok [])).1.error).isSome = true ∧
    (searchRestaurants "" "k" {} "Pune" "" (.exc "x") (fun _ => .ok [])).1.error = none ∧
    (searchRestaurants "" "k" {} "Pune" "" (.exc "x") (fun _ => .ok [])).1.results = some [] := by
  have h := c6_error_shape "" {} "Pune" "" (.exc "x") (fun _ => .ok []) "k" (by decide) (by decide)
  exact ⟨by decide, by decide, h.1, h.2.2.1, h.2.2.2.1⟩

/-- Claim C10: a result whose url is missing or empty never survives the
dedup pass, and when every accumulated result has a blank url the search
reports the empty shape: zero results and a zero count. -/
theorem c10_blank_urls (mistralKey ek : String) (prefs : UserPrefs)
    (location cuisine : String) (chat : ChatResp) (oracle : Nat → HttpResp)
    (hek : ¬ ek = "")
    (hall : ∀ r ∈ searchAccumulated mistralKey prefs location cuisine chat oracle,
      getUrl r = "") :
    (∀ (l : List SearchResult) (seen : List String) (r : SearchResult),
        getUrl r = "" → r ∉ dedupByUrl l seen) ∧
    searchUnique mistralKey prefs location cuisine chat oracle = [] ∧
    (searchRestaurants mistralKey ek prefs location cuisine chat oracle).1.results = some [] ∧
    (searchRestaurants mistralKey ek prefs location cuisine chat oracle).1.total_found = some 0 := by
  have hgen : ∀ (l : List SearchResult) (seen : List String) (r : SearchResult),
      getUrl r = "" → r ∉ dedupByUrl l seen := by
    intro l seen r hr hmem
    exact (dedup_mem l seen r hmem).1 hr
  have hu : searchUnique mistralKey prefs location cuisine chat oracle = [] :=
    dedup_all_blank _ hall []
  have hok := searchRestaurants_ok mistralKey ek prefs location cuisine chat oracle hek
  refine ⟨hgen, hu, ?_, ?_⟩
  · rw [hok.1, hu]; rfl
  · rw [hok.2.1, hu]; rfl

/-- Oracle returning only blank-url results (one with the key missing, one
with an empty string). -/
def blankOracle : Nat → HttpResp := fun _ =>
  .ok [⟨none, some "NoUrl", none⟩, ⟨some "", some "EmptyUrl", none⟩]

theorem c10_blank_urls_witness :
    ¬ ("k" : String) = "" ∧
    (∀ r ∈ searchAccumulated "" {} "Pune" "" (.exc "x") blankOracle, getUrl r = "") ∧
    (searchRestaurants "" "k" {} "Pune" "" (.exc "x") blankOracle).1.results = some [] ∧
    (searchRestaurants "" "k" {} "Pune" "" (.exc "x") blankOracle).1.total_found = some 0 := by
  have h := c10_blank_urls "" "k" {} "Pune" "" (.exc "x") blankOracle (by decide) (by decide)
  exact ⟨by decide, by decide, h.2.2.1, h.2.2.2⟩

/-- The dining-keyword test named by claim C1: some restaurant keyword of
`detect_restaurant_query` occurs in the lowercased query. -/
def containsDiningKeyword (q : String) : Bool :=
  restaurant_keywords.any (fun k => pyIn k.data (lowerChars q.data))

/-- Claim C1 (amended with the validation precondition): every query that
passes input validation and contains a food-logging keyword — also when it
contains a dining keyword — is classified as food logging and routed to the
food-logging handler, because that check runs before restaurant
detection. -/
theorem c1_food_logging_priority (mistralKey exaKey : String) (uid : Option String)
    (foodDb : List FoodLogEntry) (prefs : UserPrefs) (q : String) (o : Oracles)
    (hv : validate_input q = true) (hf : is_food_logging_request q = true)
    (hd : containsDiningKeyword q = true) :
    classify_query q = .foodLogging ∧
    process_nutrition_query mistralKey exaKey uid foodDb prefs q o =
      (handle_food_logging_request mistralKey uid foodDb prefs q o.food).1 := by
  have hc : classify_query q = .foodLogging := by
    simp [classify_query, hv, hf]
  exact ⟨hc, by simp [process_nutrition_query, hc]⟩

theorem c1_food_logging_priority_witness :
    validate_input "i ate lunch at a restaurant" = true ∧
    is_food_logging_request "i ate lunch at a restaurant" = true ∧
    containsDiningKeyword "i ate lunch at a restaurant" = true ∧
    classify_query "i ate lunch at a restaurant" = .foodLogging ∧
    process_nutrition_query "" "" (some "u1") [] {} "i ate lunch at a restaurant"
        ⟨.exc "e", .exc "e", .exc "e", .parsed "lunch" 500, fun _ => .ok []⟩ =
      (handle_food_logging_request "" (some "u1") [] {} "i ate lunch at a restaurant"
        (.parsed "lunch" 500)).1 := by
  have h := c1_food_logging_priority "" "" (some "u1") [] {} "i ate lunch at a restaurant"
    ⟨.exc "e", .exc "e", .exc "e", .parsed "lunch" 500, fun _ => .ok []⟩
    (by decide) (by decide) (by decide)
  exact ⟨by decide, by decide, by decide, h.1, h.2⟩

theorem c1_counterexample :
    is_food_logging_request "i ate spam for dinner at a restaurant" = true ∧
    containsDiningKeyword "i ate spam for dinner at a restaurant" = true ∧
    classify_query "i ate spam for dinner at a restaurant" = .invalid ∧
    process_nutrition_query "" "" (some "u1") [] {} "i ate spam for dinner at a restaurant"
        ⟨.exc "e", .exc "e", .exc "e", .parsed "spam" 100, fun _ => .ok []⟩ =
      "Invalid input. Please provide a valid nutrition question." ∧
    ¬ process_nutrition_query "" "" (some "u1") [] {} "i ate spam for dinner at a restaurant"
        ⟨.exc "e", .exc "e", .exc "e", .parsed "spam" 100, fun _ => .ok []⟩ =
      (handle_food_logging_request "" (some "u1") [] {}
        "i ate spam for dinner at a restaurant" (.parsed "spam" 100)).1 :=
  ⟨by decide, by decide, by decide, by decide, by decide⟩

/-- Claim C4: within `detect_restaurant_query`, once the restaurant keyword
guard passes the three extraction strategies are consulted in fixed order —
a strategy-1 location is returned as is, strategy 2 is used only when
strategy 1 yields nothing, and strategy 3 only when both earlier strategies
fail. -/
theorem c4_strategy_order (q : String)
    (hk : queryTriggersRestaurant (lowerChars q.data) = true) :
    (∀ l, strategy1 (lowerChars q.data) = some l →
      detect_restaurant_query q = some (String.mk l)) ∧
    (strategy1 (lowerChars q.data) = none →
      ∀ l, strategy2 (lowerChars q.data) = some l →
        detect_restaurant_query q = some (String.mk l)) ∧
    (strategy1 (lowerChars q.data) = none → strategy2 (lowerChars q.data) = none →
      detect_restaurant_query q = strategy3 q) := by
  refine ⟨?_, ?_, ?_⟩
  · intro l h1
    simp [detect_restaurant_query, hk, h1]
  · intro h1 l h2
    simp [detect_restaurant_query, hk, h1, h2]
  · intro h1 h2
    simp [detect_restaurant_query, hk, h1, h2]

theorem c4_strategy_order_witness :
    queryTriggersRestaurant (lowerChars "Zomato best pune restaurants".data) = true ∧
    strategy1 (lowerChars "Zomato best pune restaurants".data) = none ∧
    strategy2 (lowerChars "Zomato best pune restaurants".data) = some "Pune".data ∧
    detect_restaurant_query "Zomato best pune restaurants" = some "Pune" ∧
    strategy3 "Zomato best pune restaurants" = some "Zomato" := by
  refine ⟨by decide, by decide, by decide, ?_, by decide⟩
  exact (c4_strategy_order "Zomato best pune restaurants" (by decide)).2.1
    (by decide) "Pune".data (by decide)

/-- Claim C5 (amended): with an absent credential, nutrition advice reports
the missing key and issues no call, smart query generation issues no call
and silently falls back to the deterministic composer, and restaurant
search reports the missing key and issues no call; the food-logging
extraction sub-flow, however, still issues its HTTP call. -/
theorem c5_credential_gating :
    (∀ resp : ChatResp, get_ai_nutrition_advice "" resp =
      ("❌ Mistral API key not configured. Please set MISTRAL_API_KEY in your environment variables.", 0)) ∧
    (∀ (resp : ChatResp) (location : String) (prefs : UserPrefs) (cuisine : String),
      generate_smart_search_queries "" resp location prefs cuisine =
        (generate_fallback_queries location prefs cuisine, 0)) ∧
    (∀ (mistralKey : String) (prefs : UserPrefs) (location cuisine : String)
        (chat : ChatResp) (oracle : Nat → HttpResp),
      (searchRestaurants mistralKey "" prefs location cuisine chat oracle).2 = 0 ∧
      ((searchRestaurants mistralKey "" prefs location cuisine chat oracle).1.error).isSome = true) ∧
    (∀ (uid : String) (db : List FoodLogEntry) (prefs : UserPrefs) (q : String)
        (resp : FoodExtractResp), ¬ uid = "" →
      (handle_food_logging_request "" (some uid) db prefs q resp).2 = 1) := by
  refine ⟨fun resp => rfl, fun resp location prefs cuisine => rfl, ?_, ?_⟩
  · intro mistralKey prefs location cuisine chat oracle
    exact ⟨rfl, rfl⟩
  · intro uid db prefs q resp hne
    simp only [handle_food_logging_request, Option.getD_some]
    rw [if_neg hne]
    cases resp <;> rfl

theorem c5_credential_gating_witness :
    ¬ ("u1" : String) = "" ∧
    get_ai_nutrition_advice "" (.exc "e") =
      ("❌ Mistral API key not configured. Please set MISTRAL_API_KEY in your environment variables.", 0) ∧
    (generate_smart_search_queries "" (.exc "e") "Pune" {} "").2 = 0 ∧
    (searchRestaurants "" "" {} "Pune" "" (.exc "e") (fun _ => .ok [])).2 = 0 ∧
    (handle_food_logging_request "" (some "u1") [] {} "I ate an apple" (.fail 401)).2 = 1 := by
  have h := c5_credential_gating
  refine ⟨by decide, h.1 (.exc "e"), ?_, (h.2.2.1 "" {} "Pune" "" (.exc "e") (fun _ => .ok [])).1,
    h.2.2.2 "u1" [] {} "I ate an apple" (.fail 401) (by decide)⟩
  rw [h.2.1 (.exc "e") "Pune" {} ""]

theorem c5_counterexample :
    ¬ (handle_food_logging_request "" (some "u1") [] {} "I ate an apple" (.fail 401)).2 = 0 := by
  decide

/-- Claim C7 (amended): with the text-generation credential absent, the
workout path raises inside `generate_workout_plan`, but
`process_nutrition_query` catches the fault and returns the apology string
— no unhandled fault leaves query processing. -/
theorem c7_workout_raise_caught (ek : String) (uid : Option String)
    (foodDb : List FoodLogEntry) (prefs : UserPrefs) (q : String) (o : Oracles)
    (hq : classify_query q = .workout) :
    generate_workout_plan "" prefs q o.chat = .error workoutKeyMsg ∧
    process_nutrition_query "" ek uid foodDb prefs q o =
      "⚠️ Sorry, I encountered an error processing your query: " ++ workoutKeyMsg := by
  constructor
  · rfl
  · simp [process_nutrition_query, hq, generate_workout_plan]

theorem c7_workout_raise_caught_witness :
    classify_query "plan my gym training" = .workout ∧
    generate_workout_plan "" {} "plan my gym training" (.exc "e") = .error workoutKeyMsg ∧
    process_nutrition_query "" "" none [] {} "plan my gym training"
        ⟨.exc "e", .exc "e", .exc "e", .fail 401, fun _ => .ok []⟩ =
      "⚠️ Sorry, I encountered an error processing your query: " ++ workoutKeyMsg := by
  have h := c7_workout_raise_caught "" none [] {} "plan my gym training"
    ⟨.exc "e", .exc "e", .exc "e", .fail 401, fun _ => .ok []⟩ (by decide)
  exact ⟨by decide, h.1, h.2⟩

theorem c7_counterexample :
    process_nutrition_query "" "" none [] {} "suggest a workout"
        ⟨.exc "e", .exc "e", .exc "e", .fail 401, fun _ => .ok []⟩ =
      "⚠️ Sorry, I encountered an error processing your query: " ++ workoutKeyMsg := by
  decide

/-- The preference record of the C8 scenario. -/
def veganPrefs : UserPrefs := { dietary_restrictions := ["Vegan"] }

/-- Claim C8: with the credential absent the composer is deterministic —
any two calls agree whatever the external world answers — and yields
exactly the three template queries for location Pune, dietary restrictions
[Vegan] and empty cuisine. -/
theorem c8_fallback_determinism (r1 r2 : ChatResp) :
    (generate_smart_search_queries "" r1 "Pune" veganPrefs "").1 =
      ["best vegan restaurants in Pune", "good restaurants Pune reviews",
       "Pune restaurants vegan zomato swiggy"] ∧
    generate_fallback_queries "Pune" veganPrefs "" =
      ["best vegan restaurants in Pune", "good restaurants Pune reviews",
       "Pune restaurants vegan zomato swiggy"] ∧
    generate_smart_search_queries "" r1 "Pune" veganPrefs "" =
      generate_smart_search_queries "" r2 "Pune" veganPrefs "" := by
  have hfb : generate_fallback_queries "Pune" veganPrefs "" =
      ["best vegan restaurants in Pune", "good restaurants Pune reviews",
       "Pune restaurants vegan zomato swiggy"] := by decide
  exact ⟨hfb, hfb, rfl⟩

/-! ## Round-trip lemmas for the JSON codec -/

theorem mk_data (s : String) : String.mk s.data = s := rfl

theorem map_mk_data (l : List String) : (l.map String.data).map String.mk = l := by
  induction l with
  | nil => rfl
  | cons x xs ih => simp [ih]

theorem map_mk_comp_data (l : List String) : l.map (String.mk ∘ String.data) = l := by
  induction l with
  | nil => rfl
  | cons x xs ih => simp [ih, Function.comp, mk_data]

theorem jstr_rt (s : List Char) : ∀ rest, jstrDecGo (escSeq s ++ '"' :: rest) = some (s, rest) := by
  induction s with
  | nil =>
    intro rest
    rw [show escSeq [] ++ '"' :: rest = '"' :: rest by simp [escSeq], jstrDecGo.eq_def]
    simp
  | cons c tl ih =>
    intro rest
    by_cases h1 : c = '"'
    · subst h1
      rw [show escSeq ('"' :: tl) ++ '"' :: rest = '\\' :: '"' :: (escSeq tl ++ '"' :: rest) by
        simp [escSeq, escChar], jstrDecGo.eq_def]
      simp [ih]
    · by_cases h2 : c = '\\'
      · subst h2
        rw [show escSeq ('\\' :: tl) ++ '"' :: rest = '\\' :: '\\' :: (escSeq tl ++ '"' :: rest) by
          simp [escSeq, escChar], jstrDecGo.eq_def]
        simp [ih]
      · rw [show escSeq (c :: tl) ++ '"' :: rest = c :: (escSeq tl ++ '"' :: rest) by
          simp [escSeq, escChar, h1, h2], jstrDecGo.eq_def]
        simp [h1, h2, ih]

theorem decStr_rt (s : List Char) (rest : List Char) :
    decStr (encStr s ++ rest) = some (s, rest) := by
  have h : encStr s ++ rest = '"' :: (escSeq s ++ '"' :: rest) := by
    simp [encStr]
  rw [h]
  simp [decStr, jstr_rt]

theorem decStrItems_rt (l : List (List Char)) :
    ∀ fuel : Nat, l.length ≤ fuel → l ≠ [] → ∀ rest,
      decStrItems fuel (encStrItems l ++ ']' :: rest) = some (l, rest) := by
  induction l with
  | nil => intro fuel _ h; exact absurd rfl h
  | cons s tl ih =>
    intro fuel hf _ rest
    cases tl with
    | nil =>
      cases fuel with
      | zero => simp at hf
      | succ f => simp [decStrItems, encStrItems, decStr_rt]
    | cons t ts =>
      cases fuel with
      | zero => simp at hf
      | succ f =>
        have hrw : encStrItems (s :: t :: ts) ++ ']' :: rest =
            encStr s ++ (',' :: ' ' :: (encStrItems (t :: ts) ++ ']' :: rest)) := by
          simp [encStrItems]
        rw [hrw]
        have hlen : (t :: ts).length ≤ f := by
          simp only [List.length_cons] at hf ⊢
          omega
        simp [decStrItems, decStr_rt, ih f hlen (by simp) rest]

theorem encStr_len (s : List Char) : 1 ≤ (encStr s).length := by
  simp [encStr]

theorem encStrItems_len (l : List (List Char)) : l.length ≤ (encStrItems l).length := by
  induction l with
  | nil => simp [encStrItems]
  | cons s tl ih =>
    cases tl with
    | nil =>
      simpa [encStrItems] using encStr_len s
    | cons t ts =>
      have h2 : encStrItems (s :: t :: ts) = encStr s ++ ',' :: ' ' :: encStrItems (t :: ts) := rfl
      have h3 := encStr_len s
      rw [h2]
      simp only [List.length_append, List.length_cons] at *
      omega

theorem loadsChars_strlist (l : List String) :
    loadsStrListChars ('[' :: (encStrItems (l.map String.data) ++ [']'])) = some l := by
  cases l with
  | nil => decide
  | cons x xs =>
    obtain ⟨t, ht⟩ : ∃ t, encStrItems ((x :: xs).map String.data) = '"' :: t := by
      cases xs with
      | nil => exact ⟨_, rfl⟩
      | cons y ys => exact ⟨_, rfl⟩
    have hlen : ((x :: xs).map String.data).length ≤ t.length + 1 + 1 := by
      have h1 := encStrItems_len ((x :: xs).map String.data)
      rw [ht] at h1
      simp only [List.length_cons] at h1
      omega
    have hitems := decStrItems_rt ((x :: xs).map String.data) (t.length + 1 + 1)
      hlen (by simp) []
    rw [ht] at hitems
    simp only [List.cons_append, List.append_nil] at hitems
    simp only [loadsStrListChars, ht, List.cons_append]
    simp [hitems, map_mk_data, map_mk_comp_data]

theorem loads_dumps_strlist (l : List String) : loadsStrList (dumpsStrList l) = some l := by
  have h : loadsStrList (dumpsStrList l) =
      loadsStrListChars ('[' :: (encStrItems (l.map String.data) ++ [']'])) := rfl
  rw [h, loadsChars_strlist]

theorem decBool_rt (b : Bool) (rest : List Char) :
    decBool (encBool b ++ rest) = some (b, rest) := by
  cases b <;> simp [encBool, decBool, hasPrefixChars]

theorem decPair_rt (p : String × Bool) (rest : List Char) :
    decPair (encPair p ++ rest) = some (p, rest) := by
  obtain ⟨k, v⟩ := p
  have h : encPair (k, v) ++ rest = encStr k.data ++ (':' :: ' ' :: (encBool v ++ rest)) := by
    simp [encPair]
  rw [h]
  simp [decPair, decStr_rt, decBool_rt, mk_data]

theorem decPairItems_rt (l : List (String × Bool)) :
    ∀ fuel : Nat, l.length ≤ fuel → l ≠ [] → ∀ rest,
      decPairItems fuel (encPairItems l ++ '\x7d' :: rest) = some (l, rest) := by
  induction l with
  | nil => intro fuel _ h; exact absurd rfl h
  | cons p tl ih =>
    intro fuel hf _ rest
    cases tl with
    | nil =>
      cases fuel with
      | zero => simp at hf
      | succ f =>
        have hp : encPairItems [p] = encPair (p.1, p.2) := by simp [encPairItems]
        simp [decPairItems, hp, decPair_rt]
    | cons t ts =>
      cases fuel with
      | zero => simp at hf
      | succ f =>
        have hrw : encPairItems (p :: t :: ts) ++ '\x7d' :: rest =
            encPair (p.1, p.2) ++ (',' :: ' ' :: (encPairItems (t :: ts) ++ '\x7d' :: rest)) := by
          simp [encPairItems]
        rw [hrw]
        have hlen : (t :: ts).length ≤ f := by
          simp only [List.length_cons] at hf ⊢
          omega
        simp [decPairItems, decPair_rt, ih f hlen (by simp) rest]

theorem encPair_len (p : String × Bool) : 1 ≤ (encPair p).length := by
  simp [encPair, encStr]

theorem encPairItems_len (l : List (String × Bool)) : l.length ≤ (encPairItems l).length := by
  induction l with
  | nil => simp [encPairItems]
  | cons p tl ih =>
    cases tl with
    | nil =>
      have h := encPair_len p
      have h2 : encPairItems [p] = encPair p := by simp [encPairItems]
      rw [h2]
      simpa using h
    | cons t ts =>
      have h2 : encPairItems (p :: t :: ts) = encPair p ++ ',' :: ' ' :: encPairItems (t :: ts) := rfl
      have h3 := encPair_len p
      rw [h2]
      simp only [List.length_append, List.length_cons] at *
      omega

theorem loadsChars_boolobj (l : List (String × Bool)) :
    loadsBoolObjChars ('\x7b' :: (encPairItems l ++ ['\x7d'])) = some (buildDict l) := by
  cases l with
  | nil => decide
  | cons x xs =>
    obtain ⟨t, ht⟩ : ∃ t, encPairItems (x :: xs) = '"' :: t := by
      cases xs with
      | nil => exact ⟨_, rfl⟩
      | cons y ys => exact ⟨_, rfl⟩
    have hlen : (x :: xs).length ≤ t.length + 1 + 1 := by
      have h1 := encPairItems_len (x :: xs)
      rw [ht] at h1
      simp only [List.length_cons] at h1 ⊢
      omega
    have hitems := decPairItems_rt (x :: xs) (t.length + 1 + 1) hlen (by simp) []
    rw [ht] at hitems
    simp only [List.cons_append, List.append_nil] at hitems
    simp only [loadsBoolObjChars, ht, List.cons_append]
    simp [hitems]

theorem loads_dumps_boolobj (l : List (String × Bool)) :
    loadsBoolObj (dumpsBoolObj l) = some (buildDict l) := by
  have h : loadsBoolObj (dumpsBoolObj l) =
      loadsBoolObjChars ('\x7b' :: (encPairItems l ++ ['\x7d'])) := rfl
  rw [h, loadsChars_boolobj]

theorem dictInsert_fresh (d : List (String × Bool)) (k : String) (v : Bool)
    (h : ∀ p ∈ d, p.1 ≠ k) : dictInsert d k v = d ++ [(k, v)] := by
  simp only [dictInsert]
  rw [if_neg]
  intro hc
  rcases List.any_eq_true.mp hc with ⟨p, hp, he⟩
  exact h p hp (by simpa using he)

theorem buildDict_go (l : List (String × Bool)) :
    ∀ acc, (l.map Prod.fst).Nodup → (∀ p ∈ l, ∀ q ∈ acc, q.1 ≠ p.1) →
      l.foldl (fun d p => dictInsert d p.1 p.2) acc = acc ++ l := by
  induction l with
  | nil => intro acc _ _; simp
  | cons hd tlist ih =>
    intro acc hnd hdisj
    simp only [List.foldl_cons]
    rw [dictInsert_fresh acc hd.1 hd.2 (fun q hq => hdisj hd (by simp) q hq)]
    rw [ih (acc ++ [(hd.1, hd.2)]) (by simpa using hnd.of_cons) ?_]
    · simp
    · intro p hp q hq
      rcases List.mem_append.mp hq with hq1 | hq2
      · exact hdisj p (List.mem_cons_of_mem _ hp) q hq1
      · have hq3 : q = (hd.1, hd.2) := by simpa using hq2
        subst hq3
        intro he
        have : hd.1 ∈ tlist.map Prod.fst := by
          exact List.mem_map.mpr ⟨p, hp, he.symm⟩
        exact (List.nodup_cons.mp (by simpa using hnd)).1 this

theorem buildDict_nodup (l : List (String × Bool)) (h : (l.map Prod.fst).Nodup) :
    buildDict l = l := by
  have hg := buildDict_go l [] h (by simp)
  simpa [buildDict] using hg

/-! ## Lemmas about the upsert -/

theorem find?_replace (db : List PrefRow) (r : PrefRow)
    (h : db.any (fun x => x.user_id == r.user_id) = true) :
    (db.map (fun x => if x.user_id == r.user_id then r else x)).find?
      (fun x => x.user_id == r.user_id) = some r := by
  induction db with
  | nil => simp at h
  | cons x rest ih =>
    by_cases hx : x.user_id = r.user_id
    · simp [List.find?_cons, hx]
    · have hrest : rest.any (fun y => y.user_id == r.user_id) = true := by
        rcases List.any_eq_true.mp h with ⟨y, hy, hyp⟩
        rcases List.mem_cons.mp hy with rfl | hy2
        · exact absurd (by simpa using hyp) hx
        · exact List.any_eq_true.mpr ⟨y, hy2, hyp⟩
      have hmap : (x :: rest).map (fun x => if x.user_id == r.user_id then r else x) =
          (if x.user_id == r.user_id then r else x) ::
            rest.map (fun x => if x.user_id == r.user_id then r else x) := rfl
      rw [hmap, if_neg (by simp [hx]), List.find?_cons_of_neg _ (by simp [hx]), ih hrest]

theorem find?_append_not (db : List PrefRow) (r : PrefRow)
    (h : db.any (fun x => x.user_id == r.user_id) = false) :
    (db ++ [r]).find? (fun x => x.user_id == r.user_id) = some r := by
  induction db with
  | nil => simp [List.find?]
  | cons x rest ih =>
    simp only [List.any_cons, Bool.or_eq_false_iff] at h
    simp [List.find?_cons, h.1, ih h.2]

theorem find?_upsert (db : List PrefRow) (r : PrefRow) :
    (upsertRow db r).find? (fun x => x.user_id == r.user_id) = some r := by
  simp only [upsertRow]
  by_cases h : db.any (fun x => x.user_id == r.user_id) = true
  · rw [if_pos h]
    exact find?_replace db r h
  · rw [if_neg h]
    exact find?_append_not db r (by simpa using h)

theorem find?_upsert2 (db : List PrefRow) (r : PrefRow) (uid : String)
    (h : r.user_id = uid) :
    (upsertRow db r).find? (fun x => x.user_id == uid) = some r := by
  subst h
  exact find?_upsert db r

/-- Claim C9: saving preferences and retrieving them for the same user
reproduces every field; the three list-valued fields and the mapping-valued
field come back in parsed structured form, not as raw encoded text. -/
theorem c9_preferences_roundtrip (db : List PrefRow) (uid : String) (p : UserPrefs)
    (hnd : (p.health_goals.map Prod.fst).Nodup) :
    get_user_preferences (save_user_preferences db uid p).1 uid =
      some
        { user_id := uid
          dietary_restrictions := .parsed p.dietary_restrictions
          food_allergies := .parsed p.food_allergies
          cuisine_preferences := .parsed p.cuisine_preferences
          health_goals := .parsed p.health_goals
          weight_goal := p.weight_goal
          current_weight := p.current_weight
          activity_level := p.activity_level
          age := p.age
          gender := p.gender
          height_cm := p.height_cm
          daily_calorie_target := p.daily_calorie_target
          protein_target := p.protein_target
          carb_target := p.carb_target
          fat_target := p.fat_target } := by
  simp only [get_user_preferences, save_user_preferences]
  rw [find?_upsert2 db
    { user_id := uid
      dietary_restrictions := dumpsStrList p.dietary_restrictions
      food_allergies := dumpsStrList p.food_allergies
      cuisine_preferences := dumpsStrList p.cuisine_preferences
      health_goals := dumpsBoolObj p.health_goals
      weight_goal := p.weight_goal
      current_weight := p.current_weight
      activity_level := p.activity_level
      age := p.age
      gender := p.gender
      height_cm := p.height_cm
      daily_calorie_target := p.daily_calorie_target
      protein_target := p.protein_target
      carb_target := p.carb_target
      fat_target := p.fat_target } uid rfl]
  simp [parsePrefRow, rowScalars, loads_dumps_strlist, loads_dumps_boolobj,
    buildDict_nodup _ hnd]

theorem c9_preferences_roundtrip_witness :
    ((([("weight_loss", true)] : List (String × Bool)).map Prod.fst).Nodup) ∧
    get_user_preferences
        (save_user_preferences [] "u1"
          { dietary_restrictions := ["Vegan", "Keto"], food_allergies := ["Nuts"],
            cuisine_preferences := ["Italian"], health_goals := [("weight_loss", true)],
            weight_goal := some 65, age := some 30, gender := some "Other",
            daily_calorie_target := some 2000 }).1 "u1" =
      some
        { user_id := "u1"
          dietary_restrictions := .parsed ["Vegan", "Keto"]
          food_allergies := .parsed ["Nuts"]
          cuisine_preferences := .parsed ["Italian"]
          health_goals := .parsed [("weight_loss", true)]
          weight_goal := some 65
          current_weight := none
          activity_level := none
          age := some 30
          gender := some "Other"
          height_cm := none
          daily_calorie_target := some 2000
          protein_target := none
          carb_target := none
          fat_target := none } :=
  ⟨by decide,
    c9_preferences_roundtrip [] "u1"
      { dietary_restrictions := ["Vegan", "Keto"], food_allergies := ["Nuts"],
        cuisine_preferences := ["Italian"], health_goals := [("weight_loss", true)],
        weight_goal := some 65, age := some 30, gender := some "Other",
        daily_calorie_target := some 2000 } (by decide)⟩

end Nutrisense
